import Mathlib

/-!
Verification of the BCParks assets spatial quality-check pipeline
(qualityCheck_coords.py, db_manager.py).

The pipeline reads a BC boundary file, queries every asset table of the
`assets` schema for rows falling outside the boundary, filters out
near-boundary noise, sorts the violations by distance and renders a report.

The embedding below models, faithfully to the Python source:
  - geometries as finite collections of rational coordinate pairs,
  - dataframes as a column list plus association-list rows,
  - the PostGIS spatial functions as an abstract engine record
    (they run inside the external database),
  - the pandas operations used by evaluate_assets (concat, boolean-mask
    filtering, sorting by a key column, column drop, numeric rounding),
  - the top-level control flow of the script as an event trace.
-/

/-- A geometry: a finite collection of (x, y) rational coordinate parts. -/
abbrev Geom : Type := List (ℚ × ℚ)

/-- A cell value of a dataframe: missing (NaN), text, numeric, or geometry. -/
inductive Value where
  | na : Value
  | str (s : String) : Value
  | num (q : ℚ) : Value
  | geom (g : Geom) : Value
deriving DecidableEq

/-- A dataframe row: column-name/value pairs in column order. -/
abbrev Row : Type := List (String × Value)

/-- First value stored under a column name in a row (pandas label lookup). -/
def lookupV (k : String) : List (String × Value) → Option Value
  | [] => none
  | p :: r => if p.1 = k then some p.2 else lookupV k r

/-- A pandas DataFrame: ordered column labels and rows. -/
structure Frame where
  cols : List String
  rows : List Row
deriving DecidableEq

/-- The spatial functions evaluated inside the database by the SQL query of
evaluate_assets. They belong to the external PostGIS engine, so they are
parameters of the model. st_transform reprojects a stored geometry to
EPSG:4326; st_distance is the geography distance in meters. -/
structure PostGIS where
  st_transform : Geom → Geom
  st_x : Geom → ℚ
  st_y : Geom → ℚ
  st_distance : Geom → Geom → ℚ
  st_intersects : Geom → Geom → Bool

/-- A stored row of an asset table: the attribute values of its columns
(SELECT *) together with its wkb_geometry used by the spatial predicates. -/
structure AssetRow where
  attrs : List Value
  geom : Geom
deriving DecidableEq

/-- The observable state of the `assets` schema: its table catalog
(information_schema.tables) and, per table, the column labels and rows. -/
structure Database where
  catalog : List String
  cols : String → List String
  rows : String → List AssetRow

/-- The three table names excluded from evaluation in evaluate_assets:
x not in ['qgis_projects', 'trails', 'roads']. -/
def denylist : List String := ["qgis_projects", "trails", "roads"]

/-- Candidate tables: the schema catalog minus the denylist
(tab_names in evaluate_assets). -/
def tab_names (db : Database) : List String :=
  db.catalog.filter (fun x => decide (x ∉ denylist))

/-- The per-table SQL query of evaluate_assets: keeps rows whose transformed
geometry does not intersect the boundary, and extends each kept row with
longitude, latitude and distance_km (meters divided by 1000). -/
def queryTable (pg : PostGIS) (db : Database) (g : Geom) (t : String) : Frame :=
  { cols := db.cols t ++ ["longitude", "latitude", "distance_km"],
    rows := (db.rows t).filterMap (fun ar =>
      if pg.st_intersects (pg.st_transform ar.geom) g then none
      else some (List.zip (db.cols t) ar.attrs ++
        [("longitude", Value.num (pg.st_x (pg.st_transform ar.geom))),
         ("latitude", Value.num (pg.st_y (pg.st_transform ar.geom))),
         ("distance_km", Value.num (pg.st_distance (pg.st_transform ar.geom) g / 1000))])) }

/-- The frames accumulated in results, one per candidate table, in catalog
order (the results dict of evaluate_assets). -/
def queriedFrames (pg : PostGIS) (db : Database) (g : Geom) : List Frame :=
  (tab_names db).map (queryTable pg db g)

/-- Column labels of pd.concat: union of the input column lists in order of
first appearance. -/
def concatCols (colss : List (List String)) : List String :=
  colss.foldl (fun acc cs => acc ++ cs.filter (fun c => decide (c ∉ acc))) []

/-- Reindexing of a row to a column list, filling absent labels with NaN
(pd.concat alignment). -/
def reindexRow (cols : List String) (r : Row) : Row :=
  cols.map (fun c => (c, (lookupV c r).getD Value.na))

/-- pd.concat(results.values(), ignore_index=True): stacks all rows, aligned
to the union of the column lists. -/
def concatFrames (frames : List Frame) : Frame :=
  let cols := concatCols (frames.map Frame.cols)
  { cols := cols,
    rows := ((frames.map Frame.rows).flatten).map (reindexRow cols) }

/-- The distance_km key of a row, when it holds a number. -/
def distOf (r : Row) : Option ℚ :=
  match lookupV "distance_km" r with
  | some (Value.num q) => some q
  | _ => none

/-- The boolean mask of the noise filter df[df['distance_km'] > 0.05]:
NaN or non-numeric compares false. -/
def keepRow (r : Row) : Bool :=
  match distOf r with
  | some q => decide ((1 : ℚ)/20 < q)
  | none => false

/-- Descending comparison on optional distance keys; rows without a numeric
key sort last (pandas na_position='last'). -/
def keyGE : Option ℚ → Option ℚ → Bool
  | some a, some b => decide (b ≤ a)
  | some _, none => true
  | none, some _ => false
  | none, none => true

/-- Row comparison of df.sort_values(by='distance_km', ascending=False). -/
def rowGE (r₁ r₂ : Row) : Bool := keyGE (distOf r₁) (distOf r₂)

/-- Ordered insertion for the deterministic model of the pandas sort. -/
def insertR (le : Row → Row → Bool) (x : Row) : List Row → List Row
  | [] => [x]
  | y :: ys => if le x y then x :: y :: ys else y :: insertR le x ys

/-- Deterministic comparison sort modelling df.sort_values. -/
def isort (le : Row → Row → Bool) : List Row → List Row
  | [] => []
  | x :: xs => insertR le x (isort le xs)

/-- Rounding half-to-even of a rational to an integer (numpy rounding,
underlying df.round). -/
def rhe (x : ℚ) : ℤ :=
  if x - x.floor < 1/2 then x.floor
  else if (1 : ℚ)/2 < x - x.floor then x.floor + 1
  else if x.floor % 2 = 0 then x.floor else x.floor + 1

/-- Rounding to 3 decimal places (df.round(3)). -/
def round3 (q : ℚ) : ℚ := (rhe (q * 1000) : ℚ) / 1000

/-- Rounding applied to a cell: only numeric cells are rounded. -/
def roundVal : Value → Value
  | Value.num q => Value.num (round3 q)
  | v => v

/-- The columns dropped before the report:
df.drop(columns=['wkb_geometry', 'ogc_fid', 'campsite_number']). -/
def dropNames : List String := ["wkb_geometry", "ogc_fid", "campsite_number"]

/-- Removal of the dropped columns from one row. -/
def dropRow (r : Row) : Row :=
  r.filter (fun p => decide (p.1 ∉ dropNames))

/-- Rounding applied to one row. -/
def roundRow (r : Row) : Row :=
  r.map (fun p => (p.1, roundVal p.2))

/-- df[df['distance_km'] > 0.05]. -/
def filterFrame (f : Frame) : Frame :=
  { f with rows := f.rows.filter keepRow }

/-- df.sort_values(by='distance_km', ascending=False). -/
def sortFrame (f : Frame) : Frame :=
  { f with rows := isort rowGE f.rows }

/-- df.drop(columns=['wkb_geometry', 'ogc_fid', 'campsite_number']). -/
def dropFrame (f : Frame) : Frame :=
  { cols := f.cols.filter (fun c => decide (c ∉ dropNames)),
    rows := f.rows.map dropRow }

/-- df.round(3). -/
def roundFrame (f : Frame) : Frame :=
  { f with rows := f.rows.map roundRow }

/-- evaluate_assets(bc_geom_wkb, conn): query every candidate table, stack
the per-table results, drop near-boundary noise, sort by distance
descending, drop internal columns and round to 3 decimals. -/
def evaluate_assets (pg : PostGIS) (db : Database) (g : Geom) : Frame :=
  roundFrame (dropFrame (sortFrame (filterFrame (concatFrames (queriedFrames pg db g)))))

/-- The parsed content of the boundary GeoJSON file: a coordinate reference
system tag and a list of features (geopandas GeoDataFrame). -/
structure GeoDataFrame where
  crs : String
  features : List Geom
deriving DecidableEq

/-- gdf.to_crs(target): reprojects every feature with the library's
reprojection map and retags the frame. -/
def to_crs (rep : Geom → Geom) (target : String) (gdf : GeoDataFrame) : GeoDataFrame :=
  { crs := target, features := gdf.features.map rep }

/-- gdf.unary_union: collapses all features into a single geometry. -/
def unary_union (gdf : GeoDataFrame) : Geom :=
  gdf.features.flatten

/-- A well-known-binary blob wrapping one geometry. -/
structure WKB where
  geom : Geom
deriving DecidableEq

/-- shapely.wkb.dumps. -/
def wkb_dumps (g : Geom) : WKB := ⟨g⟩

/-- shapely.wkb.loads. -/
def wkb_loads (w : WKB) : Geom := w.geom

/-- The CRS normalization step of read_geojson:
if gdf.crs != "EPSG:4326": gdf = gdf.to_crs("EPSG:4326"). -/
def normalizeCrs (rep : Geom → Geom) (gdf : GeoDataFrame) : GeoDataFrame :=
  if gdf.crs ≠ "EPSG:4326" then to_crs rep "EPSG:4326" gdf else gdf

/-- read_geojson(geojson_path): normalize the CRS, union all features,
serialize to WKB. The file content is the GeoDataFrame argument; rep is the
library's reprojection to EPSG:4326. -/
def read_geojson (rep : Geom → Geom) (gdf : GeoDataFrame) : WKB :=
  wkb_dumps (unary_union (normalizeCrs rep gdf))

/-- The fields of the PostgresDBManager class. The connection and cursor are
identified by opaque handles. -/
structure PostgresDBManager where
  dbname : String
  user : String
  password : String
  host : String
  port : String
  connection : Option ℕ
  cursor : Option ℕ
deriving DecidableEq

/-- Log lines emitted by PostgresDBManager.disconnect. -/
inductive LogMsg where
  | connClosed : LogMsg
  | errClosing : LogMsg
  | noActiveConn : LogMsg
deriving DecidableEq

/-- PostgresDBManager.disconnect: if a connection is active, close it —
logging instead of propagating a DatabaseError raised by close() — and in
a finally block set connection and cursor to None; otherwise only warn.
closeRaises tells whether connection.close() raises a DatabaseError. -/
def PostgresDBManager.disconnect (closeRaises : Bool) (s : PostgresDBManager) :
    PostgresDBManager × List LogMsg :=
  match s.connection with
  | some _ =>
      ({ s with connection := none, cursor := none },
       if closeRaises then [LogMsg.errClosing] else [LogMsg.connClosed])
  | none => (s, [LogMsg.noActiveConn])

/-- The outcomes of the external operations attempted by one run of the
script: whether psycopg2.connect succeeds, whether the boundary file loads,
whether the asset queries succeed, and whether the violation table is empty. -/
structure Env where
  connectOk : Bool
  boundaryOk : Bool
  queryOk : Bool
  dfEmpty : Bool
deriving DecidableEq

/-- Observable events of one run of the script. -/
inductive Ev where
  | connEstablished : Ev
  | connErrorLogged : Ev
  | boundaryLoaded : Ev
  | errorLogged : Ev
  | queryIssued : Ev
  | dbDisconnect : Ev
  | reportSaved : Ev
  | noAssetsLogged : Ev
deriving DecidableEq

/-- The event trace and exit code of the script body, following the source:
pg.connect() catches OperationalError internally (logging the error and
leaving the connection None, without raising); read_geojson runs next and a
failure there raises into the top-level except, which logs and exits 1;
evaluate_assets raises at once when the connection is None (before any SQL
reaches the database) and otherwise issues the queries; pg.disconnect() runs
in the finally block on every path; after the try block, a non-empty table
leads to the saved report and exit code 0, while an empty table only logs
that no assets were found and exits 1. -/
def mainTrace (env : Env) : List Ev × ℕ :=
  let connEv := if env.connectOk then [Ev.connEstablished] else [Ev.connErrorLogged]
  if env.boundaryOk = false then
    (connEv ++ [Ev.errorLogged, Ev.dbDisconnect], 1)
  else if env.connectOk = false then
    (connEv ++ [Ev.boundaryLoaded, Ev.errorLogged, Ev.dbDisconnect], 1)
  else if env.queryOk = false then
    (connEv ++ [Ev.boundaryLoaded, Ev.queryIssued, Ev.errorLogged, Ev.dbDisconnect], 1)
  else if env.dfEmpty then
    (connEv ++ [Ev.boundaryLoaded, Ev.queryIssued, Ev.dbDisconnect, Ev.noAssetsLogged], 1)
  else
    (connEv ++ [Ev.boundaryLoaded, Ev.queryIssued, Ev.dbDisconnect, Ev.reportSaved], 0)

/-- A concrete PostGIS engine for witnesses: identity reprojection, zero
coordinates, constant 70 m distance, disjoint geometries. -/
def pgW : PostGIS :=
  { st_transform := fun g => g,
    st_x := fun _ => 0,
    st_y := fun _ => 0,
    st_distance := fun _ _ => 70,
    st_intersects := fun _ _ => false }

/-- A concrete database for witnesses: the catalog holds one denylisted and
one candidate table; every table has one stored row. -/
def dbW : Database :=
  { catalog := ["qgis_projects", "sites"],
    cols := fun _ => ["gisid", "wkb_geometry", "ogc_fid", "campsite_number"],
    rows := fun _ => [{ attrs := [Value.str "A1", Value.geom [], Value.num 1, Value.str "x"],
                        geom := [] }] }

/-- The witness database with all rows removed (same catalog and columns). -/
def dbW0 : Database :=
  { catalog := ["qgis_projects", "sites"],
    cols := fun _ => ["gisid", "wkb_geometry", "ogc_fid", "campsite_number"],
    rows := fun _ => [] }

/-- A database whose catalog holds all three denylisted tables plus one
candidate table. -/
def dbC5 : Database :=
  { catalog := ["qgis_projects", "trails", "roads", "sites"],
    cols := fun _ => ["gisid", "wkb_geometry", "ogc_fid", "campsite_number"],
    rows := fun _ => [] }

/-- The witness boundary geometry. -/
def gW : Geom := []

/-- The row produced by evaluate_assets on the witness data. -/
def rW : Row :=
  [("gisid", Value.str "A1"), ("longitude", Value.num 0),
   ("latitude", Value.num 0), ("distance_km", Value.num (7/100))]

/-- A concrete reprojection for the boundary-loader witness: swaps the two
coordinates of every part. -/
def repW : Geom → Geom := fun g => g.map (fun p => (p.2, p.1))

/-- A two-feature boundary file in a non-EPSG:4326 reference system. -/
def gdfW : GeoDataFrame :=
  { crs := "EPSG:3005", features := [[((1 : ℚ), (2 : ℚ))], [((3 : ℚ), (4 : ℚ))]] }

/-- A manager holding an active connection and cursor. -/
def pgmSome : PostgresDBManager :=
  { dbname := "cw", user := "u", password := "p", host := "h", port := "5432",
    connection := some 1, cursor := some 2 }

/-- A manager with no active connection. -/
def pgmNone : PostgresDBManager :=
  { dbname := "cw", user := "u", password := "p", host := "h", port := "5432",
    connection := none, cursor := none }

/-- Run environment: everything succeeds but the violation table is empty. -/
def envEmptyDf : Env :=
  { connectOk := true, boundaryOk := true, queryOk := true, dfEmpty := true }

/-- Run environment: the boundary file fails to load. -/
def envNoBoundary : Env :=
  { connectOk := true, boundaryOk := false, queryOk := true, dfEmpty := false }

/-- Run environment: the database connection fails. -/
def envNoConn : Env :=
  { connectOk := false, boundaryOk := true, queryOk := true, dfEmpty := false }

theorem ratFloor_eq (x : ℚ) : x.floor = ⌊x⌋ := by
  rw [Rat.floor_def', ← Rat.floor_def]

theorem rhe_eval (x : ℚ) :
    rhe x = if x - ⌊x⌋ < 1/2 then ⌊x⌋
      else if (1 : ℚ)/2 < x - ⌊x⌋ then ⌊x⌋ + 1
      else if ⌊x⌋ % 2 = 0 then ⌊x⌋ else ⌊x⌋ + 1 := by
  unfold rhe
  rw [ratFloor_eq]

theorem rhe_lb (x : ℚ) : ⌊x⌋ ≤ rhe x := by
  rw [rhe_eval]
  split_ifs <;> omega

theorem rhe_ub (x : ℚ) : rhe x ≤ ⌊x⌋ + 1 := by
  rw [rhe_eval]
  split_ifs <;> omega

theorem rhe_mono {x y : ℚ} (h : x ≤ y) : rhe x ≤ rhe y := by
  rcases eq_or_lt_of_le (Int.floor_le_floor h) with hf | hf
  · rw [rhe_eval, rhe_eval, ← hf]
    have hxy : x - (⌊x⌋ : ℚ) ≤ y - (⌊x⌋ : ℚ) := by linarith
    split_ifs <;> first | omega | linarith
  · have h1 := rhe_ub x
    have h2 := rhe_lb y
    omega

theorem round3_mono {x y : ℚ} (h : x ≤ y) : round3 x ≤ round3 y := by
  unfold round3
  have hm : rhe (x * 1000) ≤ rhe (y * 1000) := rhe_mono (by linarith)
  have hc : ((rhe (x * 1000) : ℚ)) ≤ ((rhe (y * 1000) : ℚ)) := by exact_mod_cast hm
  linarith

theorem lookupV_filter (k : String) (p : String × Value → Bool)
    (h : ∀ v, p (k, v) = true) (r : List (String × Value)) :
    lookupV k (r.filter p) = lookupV k r := by
  induction r with
  | nil => rfl
  | cons hd tl ih =>
    obtain ⟨a, b⟩ := hd
    by_cases hak : a = k
    · subst hak
      simp [List.filter_cons, h b, lookupV]
    · rw [List.filter_cons]
      by_cases hp : p (a, b)
      · simp [hp, lookupV, hak, ih]
      · simp [hp, lookupV, hak, ih]

theorem lookupV_map_val (k : String) (f : Value → Value) (r : List (String × Value)) :
    lookupV k (r.map (fun q => (q.1, f q.2))) = (lookupV k r).map f := by
  induction r with
  | nil => rfl
  | cons hd tl ih =>
    obtain ⟨a, b⟩ := hd
    by_cases hak : a = k
    · simp [lookupV, hak, ih]
    · simp [lookupV, hak, ih]

theorem distOf_dropRow (r : Row) : distOf (dropRow r) = distOf r := by
  unfold distOf dropRow
  rw [lookupV_filter]
  intro v
  simp [dropNames]

theorem distOf_roundRow (r : Row) : distOf (roundRow r) = (distOf r).map round3 := by
  unfold distOf roundRow
  rw [lookupV_map_val]
  rcases lookupV "distance_km" r with _ | v
  · rfl
  · rcases v with _ | s | q | g2
    · simp [roundVal]
    · simp [roundVal]
    · simp [roundVal]
    · simp [roundVal]

theorem keyGE_trans {a b c : Option ℚ} (h1 : keyGE a b = true) (h2 : keyGE b c = true) :
    keyGE a c = true := by
  rcases a with _ | a <;> rcases b with _ | b <;> rcases c with _ | c <;>
    simp_all [keyGE]
  linarith

theorem keyGE_total (a b : Option ℚ) : keyGE a b = true ∨ keyGE b a = true := by
  rcases a with _ | a <;> rcases b with _ | b <;> simp [keyGE]
  exact le_total b a

theorem rowGE_trans {a b c : Row} (h1 : rowGE a b = true) (h2 : rowGE b c = true) :
    rowGE a c = true :=
  keyGE_trans h1 h2

theorem rowGE_total (a b : Row) : rowGE a b = true ∨ rowGE b a = true :=
  keyGE_total _ _

theorem keyGE_map_round3 {a b : Option ℚ} (h : keyGE a b = true) :
    keyGE (a.map round3) (b.map round3) = true := by
  rcases a with _ | a <;> rcases b with _ | b <;> simp_all [keyGE]
  exact round3_mono h

theorem mem_insertR (le : Row → Row → Bool) (x a : Row) (l : List Row) :
    a ∈ insertR le x l ↔ a = x ∨ a ∈ l := by
  induction l with
  | nil => simp [insertR]
  | cons y ys ih =>
    unfold insertR
    by_cases hxy : le x y = true
    · simp [hxy]
    · simp only [hxy]
      simp [ih]
      tauto

theorem mem_isort (le : Row → Row → Bool) (a : Row) (l : List Row) :
    a ∈ isort le l ↔ a ∈ l := by
  induction l with
  | nil => simp [isort]
  | cons y ys ih =>
    unfold isort
    rw [mem_insertR]
    simp [ih]

theorem pairwise_insertR (le : Row → Row → Bool)
    (htot : ∀ a b, le a b = true ∨ le b a = true)
    (htr : ∀ a b c, le a b = true → le b c = true → le a c = true)
    (x : Row) (l : List Row) (hl : l.Pairwise (fun a b => le a b = true)) :
    (insertR le x l).Pairwise (fun a b => le a b = true) := by
  induction l with
  | nil => simp [insertR]
  | cons y ys ih =>
    rcases List.pairwise_cons.mp hl with ⟨hy, hys⟩
    unfold insertR
    by_cases hxy : le x y = true
    · rw [if_pos hxy]
      refine List.pairwise_cons.mpr ⟨?_, hl⟩
      intro b hb
      rcases List.mem_cons.mp hb with rfl | hb
      · exact hxy
      · exact htr x y b hxy (hy b hb)
    · rw [if_neg hxy]
      have hyx : le y x = true := (htot x y).resolve_left hxy
      refine List.pairwise_cons.mpr ⟨?_, ih hys⟩
      intro b hb
      rcases (mem_insertR le x b ys).mp hb with rfl | hb
      · exact hyx
      · exact hy b hb

theorem pairwise_isort (le : Row → Row → Bool)
    (htot : ∀ a b, le a b = true ∨ le b a = true)
    (htr : ∀ a b c, le a b = true → le b c = true → le a c = true)
    (l : List Row) : (isort le l).Pairwise (fun a b => le a b = true) := by
  induction l with
  | nil => simp [isort]
  | cons y ys ih =>
    unfold isort
    exact pairwise_insertR le htot htr y (isort le ys) ih

theorem mem_concatCols_aux (c : String) (colss : List (List String)) :
    ∀ acc : List String,
      (c ∈ colss.foldl (fun acc cs => acc ++ cs.filter (fun c => decide (c ∉ acc))) acc) ↔
        c ∈ acc ∨ ∃ cs ∈ colss, c ∈ cs := by
  induction colss with
  | nil => intro acc; simp
  | cons cs rest ih =>
    intro acc
    rw [List.foldl_cons, ih]
    constructor
    · rintro (h | h)
      · rcases List.mem_append.mp h with h | h
        · exact Or.inl h
        · exact Or.inr ⟨cs, by simp, (List.mem_filter.mp h).1⟩
      · obtain ⟨cs', hcs', hc⟩ := h
        exact Or.inr ⟨cs', by simp [hcs'], hc⟩
    · rintro (h | ⟨cs', hcs', hc⟩)
      · exact Or.inl (List.mem_append.mpr (Or.inl h))
      · rcases List.mem_cons.mp hcs' with rfl | hcs'
        · by_cases hacc : c ∈ acc
          · exact Or.inl (List.mem_append.mpr (Or.inl hacc))
          · exact Or.inl (List.mem_append.mpr
              (Or.inr (List.mem_filter.mpr ⟨hc, by simpa using hacc⟩)))
        · exact Or.inr ⟨cs', hcs', hc⟩

theorem mem_concatCols (c : String) (colss : List (List String)) :
    c ∈ concatCols colss ↔ ∃ cs ∈ colss, c ∈ cs := by
  unfold concatCols
  rw [mem_concatCols_aux]
  simp

theorem evaluate_assets_rows (pg : PostGIS) (db : Database) (g : Geom) :
    (evaluate_assets pg db g).rows =
      ((isort rowGE (((concatFrames (queriedFrames pg db g)).rows).filter keepRow)).map
        dropRow).map roundRow := rfl

theorem evaluate_assets_cols (pg : PostGIS) (db : Database) (g : Geom) :
    (evaluate_assets pg db g).cols =
      (concatCols ((tab_names db).map
        (fun t => db.cols t ++ ["longitude", "latitude", "distance_km"]))).filter
        (fun c => decide (c ∉ dropNames)) := by
  show (concatCols ((queriedFrames pg db g).map Frame.cols)).filter _ = _
  rw [queriedFrames, List.map_map]
  rfl

/-- Claim C1 is refuted at a concrete run: with every external operation
succeeding and the violation table empty, the run logs the no-assets message
and exits with code 1, and no report document is produced — contradicting the
claim that a minimal report is written and the process exits with code zero. -/
theorem claim_C1_counterexample :
    mainTrace envEmptyDf =
      ([Ev.connEstablished, Ev.boundaryLoaded, Ev.queryIssued, Ev.dbDisconnect,
        Ev.noAssetsLogged], 1)
    ∧ Ev.reportSaved ∉ (mainTrace envEmptyDf).1
    ∧ (mainTrace envEmptyDf).2 ≠ 0 := by
  decide

/-- Claim C1 (amended): when the violation table has zero rows the pipeline
produces no report document at all, logs that no assets were found outside
the boundary, and exits with code 1. -/
theorem claim_C1 (env : Env) (h1 : env.connectOk = true) (h2 : env.boundaryOk = true)
    (h3 : env.queryOk = true) (h4 : env.dfEmpty = true) :
    (mainTrace env).2 = 1 ∧ Ev.reportSaved ∉ (mainTrace env).1 ∧
      Ev.noAssetsLogged ∈ (mainTrace env).1 := by
  obtain ⟨a, b, c, d⟩ := env
  simp only [Env.connectOk] at h1
  simp only [Env.boundaryOk] at h2
  simp only [Env.queryOk] at h3
  simp only [Env.dfEmpty] at h4
  subst h1 h2 h3 h4
  decide

/-- Witness for the amended C1 at the concrete empty-table run. -/
theorem claim_C1_witness :
    (mainTrace envEmptyDf).2 = 1 ∧ Ev.reportSaved ∉ (mainTrace envEmptyDf).1 ∧
      Ev.noAssetsLogged ∈ (mainTrace envEmptyDf).1 :=
  claim_C1 envEmptyDf rfl rfl rfl rfl

/-- Claim C2: every record of the final violation table is derived from a
computed distance_km strictly greater than 0.05 km (50 meters): its stored
distance value is the 3-decimal rounding of some q exceeding the threshold,
so records at or below the threshold never appear in the table. -/
theorem claim_C2 (pg : PostGIS) (db : Database) (g : Geom) (r : Row)
    (h : r ∈ (evaluate_assets pg db g).rows) :
    ∃ q : ℚ, (1 : ℚ)/20 < q ∧ distOf r = some (round3 q) := by
  rw [evaluate_assets_rows] at h
  rcases List.mem_map.mp h with ⟨r₁, h₁, rfl⟩
  rcases List.mem_map.mp h₁ with ⟨r₀, h₀, rfl⟩
  have hmem : r₀ ∈ ((concatFrames (queriedFrames pg db g)).rows).filter keepRow :=
    (mem_isort rowGE r₀ _).mp h₀
  have hk : keepRow r₀ = true := (List.mem_filter.mp hmem).2
  rcases hq : distOf r₀ with _ | q
  · rw [keepRow, hq] at hk
    simp at hk
  · refine ⟨q, ?_, ?_⟩
    · rw [keepRow, hq] at hk
      exact of_decide_eq_true hk
    · rw [distOf_roundRow, distOf_dropRow, hq]
      rfl

/-- Claim C3: the final violation table is sorted by distance descending —
every adjacent pair of rows satisfies the descending comparison on the
distance_km key. -/
theorem claim_C3 (pg : PostGIS) (db : Database) (g : Geom) :
    ((evaluate_assets pg db g).rows).Chain' (fun r₁ r₂ => rowGE r₁ r₂ = true) := by
  rw [evaluate_assets_rows, List.map_map]
  have hp := pairwise_isort rowGE rowGE_total
    (fun a b c h1 h2 => rowGE_trans h1 h2)
    (((concatFrames (queriedFrames pg db g)).rows).filter keepRow)
  have hmap : ∀ a b : Row, rowGE a b = true →
      rowGE ((roundRow ∘ dropRow) a) ((roundRow ∘ dropRow) b) = true := by
    intro a b hab
    show keyGE (distOf (roundRow (dropRow a))) (distOf (roundRow (dropRow b))) = true
    rw [distOf_roundRow, distOf_dropRow, distOf_roundRow, distOf_dropRow]
    exact keyGE_map_round3 hab
  exact (hp.map (roundRow ∘ dropRow) hmap).chain'

/-- Witness for C2: the single row produced on the witness database. -/
theorem claim_C2_witness :
    ∃ q : ℚ, (1 : ℚ)/20 < q ∧ distOf rW = some (round3 q) :=
  claim_C2 pgW dbW gW rW (by
    have hrows : (evaluate_assets pgW dbW gW).rows = [rW] := by
      simp [evaluate_assets, queriedFrames, tab_names, dbW, pgW, gW, denylist, queryTable,
        concatFrames, concatCols, reindexRow, lookupV, filterFrame, keepRow, distOf,
        sortFrame, dropFrame, roundFrame, List.filter, List.filterMap]
      norm_num
      rw [show ∀ r : Row, isort rowGE [r] = [r] from fun _ => rfl]
      simp [dropRow, dropNames, roundRow, roundVal, rW]
      norm_num [round3, rhe_eval]
    rw [hrows]
    exact List.mem_singleton.mpr rfl)

/-- Claim C4: the Boundary Loader returns a single WKB blob; its geometry is
the union of the CRS-normalized features, the normalized frame is EPSG:4326
even when the input is not, and the union covers every input feature (after
reprojection when the input frame differs), losing no part. -/
theorem claim_C4 (rep : Geom → Geom) (gdf : GeoDataFrame) :
    (normalizeCrs rep gdf).crs = "EPSG:4326"
    ∧ wkb_loads (read_geojson rep gdf) = unary_union (normalizeCrs rep gdf)
    ∧ ∀ f ∈ gdf.features, ∀ p ∈ (if gdf.crs = "EPSG:4326" then f else rep f),
        p ∈ wkb_loads (read_geojson rep gdf) := by
  refine ⟨?_, rfl, ?_⟩
  · unfold normalizeCrs
    split_ifs with h
    · rfl
    · exact not_not.mp h
  · intro f hf p hp
    show p ∈ unary_union (normalizeCrs rep gdf)
    unfold unary_union normalizeCrs
    by_cases h : gdf.crs = "EPSG:4326"
    · rw [if_pos h] at hp
      rw [if_neg (by simp [h])]
      exact List.mem_flatten.mpr ⟨f, hf, hp⟩
    · rw [if_neg h] at hp
      rw [if_pos h]
      exact List.mem_flatten.mpr ⟨rep f, List.mem_map.mpr ⟨f, hf, rfl⟩, hp⟩

/-- Witness for C4: a two-feature file in EPSG:3005 is normalized to
EPSG:4326 and the reprojected first feature's point survives in the union. -/
theorem claim_C4_witness :
    (normalizeCrs repW gdfW).crs = "EPSG:4326"
    ∧ ((2 : ℚ), (1 : ℚ)) ∈ wkb_loads (read_geojson repW gdfW) := by
  refine ⟨(claim_C4 repW gdfW).1, ?_⟩
  refine (claim_C4 repW gdfW).2.2 [((1 : ℚ), (2 : ℚ))] (by simp [gdfW])
    ((2 : ℚ), (1 : ℚ)) ?_
  simp [gdfW, repW]

/-- Claim C5 is refuted on the exclusion count: the evaluator's denylist
holds three tables, not two — on a catalog holding the three denylisted
tables plus one candidate, three tables are excluded. -/
theorem claim_C5_counterexample :
    tab_names dbC5 = ["sites"]
    ∧ (dbC5.catalog.filter (fun t => decide (t ∈ denylist))).length = 3
    ∧ denylist.length ≠ 2 := by
  decide

/-- Claim C5 (amended): candidate tables are enumerated from the schema
catalog and a fixed denylist of three tables (one non-asset metadata table
and two linear-feature tables) is excluded; every catalog table not on the
denylist is a candidate, and every candidate is queried for violations. -/
theorem claim_C5 (pg : PostGIS) (db : Database) (g : Geom) (t : String) :
    (t ∈ tab_names db ↔ (t ∈ db.catalog ∧ t ∉ denylist))
    ∧ denylist.length = 3
    ∧ (t ∈ tab_names db → queryTable pg db g t ∈ queriedFrames pg db g) := by
  refine ⟨?_, rfl, ?_⟩
  · unfold tab_names
    simp [List.mem_filter]
  · intro ht
    exact List.mem_map.mpr ⟨t, ht, rfl⟩

/-- Witness for the amended C5 on the four-table catalog. -/
theorem claim_C5_witness :
    ("sites" ∈ tab_names dbC5 ↔ ("sites" ∈ dbC5.catalog ∧ "sites" ∉ denylist))
    ∧ denylist.length = 3
    ∧ queryTable pgW dbC5 gW "sites" ∈ queriedFrames pgW dbC5 gW := by
  obtain ⟨h1, h2, h3⟩ := claim_C5 pgW dbC5 gW "sites"
  exact ⟨h1, h2, h3 (by decide)⟩

/-- Claim C6 is refuted at a concrete run: when the boundary file fails to
load, the trace nevertheless holds an established database connection
(opened before the boundary read) — database work is performed before the
boundary file has been loaded. -/
theorem claim_C6_counterexample :
    mainTrace envNoBoundary = ([Ev.connEstablished, Ev.errorLogged, Ev.dbDisconnect], 1)
    ∧ Ev.connEstablished ∈ (mainTrace envNoBoundary).1 := by
  decide

/-- Claim C6 (amended): if the boundary file is missing or unparsable the
run aborts with exit code 1 and no asset query is ever issued; however the
database connection is opened before the boundary file is read (the trace of
a successful connect holds it ahead of the failure), and the cleanup path
still releases it. -/
theorem claim_C6 (env : Env) (h : env.boundaryOk = false) :
    (mainTrace env).2 = 1
    ∧ Ev.queryIssued ∉ (mainTrace env).1
    ∧ Ev.dbDisconnect ∈ (mainTrace env).1
    ∧ (env.connectOk = true →
        (mainTrace env).1 = [Ev.connEstablished, Ev.errorLogged, Ev.dbDisconnect]) := by
  obtain ⟨a, b, c, d⟩ := env
  simp only [Env.boundaryOk] at h
  subst h
  cases a <;> cases c <;> cases d <;> decide

/-- Witness for the amended C6 at the concrete boundary-failure run. -/
theorem claim_C6_witness :
    (mainTrace envNoBoundary).2 = 1
    ∧ Ev.queryIssued ∉ (mainTrace envNoBoundary).1
    ∧ Ev.dbDisconnect ∈ (mainTrace envNoBoundary).1
    ∧ (envNoBoundary.connectOk = true →
        (mainTrace envNoBoundary).1 = [Ev.connEstablished, Ev.errorLogged, Ev.dbDisconnect]) :=
  claim_C6 envNoBoundary rfl

/-- Claim C7 is refuted at a concrete run: after a connection failure the
boundary-loading stage still runs (the trace holds the boundary-loaded event
after the logged connection error), so the pipeline does not abort
immediately. -/
theorem claim_C7_counterexample :
    mainTrace envNoConn =
      ([Ev.connErrorLogged, Ev.boundaryLoaded, Ev.errorLogged, Ev.dbDisconnect], 1)
    ∧ Ev.boundaryLoaded ∈ (mainTrace envNoConn).1 := by
  decide

/-- Claim C7 (amended): on database connection failure the error is logged
and no query is ever issued, the run ends with exit code 1 and the cleanup
path runs; but the pipeline does not abort immediately — the boundary
loader still runs (when the boundary file is readable) before the evaluator
fails on the missing connection. -/
theorem claim_C7 (env : Env) (h : env.connectOk = false) :
    Ev.connErrorLogged ∈ (mainTrace env).1
    ∧ Ev.queryIssued ∉ (mainTrace env).1
    ∧ Ev.dbDisconnect ∈ (mainTrace env).1
    ∧ (mainTrace env).2 = 1
    ∧ (env.boundaryOk = true → Ev.boundaryLoaded ∈ (mainTrace env).1) := by
  obtain ⟨a, b, c, d⟩ := env
  simp only [Env.connectOk] at h
  subst h
  cases b <;> cases c <;> cases d <;> decide

/-- Witness for the amended C7 at the concrete connection-failure run. -/
theorem claim_C7_witness :
    Ev.connErrorLogged ∈ (mainTrace envNoConn).1
    ∧ Ev.queryIssued ∉ (mainTrace envNoConn).1
    ∧ Ev.dbDisconnect ∈ (mainTrace envNoConn).1
    ∧ (mainTrace envNoConn).2 = 1
    ∧ (envNoConn.boundaryOk = true → Ev.boundaryLoaded ∈ (mainTrace envNoConn).1) :=
  claim_C7 envNoConn rfl

/-- Claim C8: the evaluator is deterministic — two runs against databases in
the same observable state (same catalog, same columns, same rows) with the
same boundary geometry and the same engine produce identical violation
tables, same rows in the same order. -/
theorem claim_C8 (pg : PostGIS) (db₁ db₂ : Database) (g : Geom)
    (hcat : db₁.catalog = db₂.catalog)
    (hcols : ∀ t, db₁.cols t = db₂.cols t)
    (hrows : ∀ t, db₁.rows t = db₂.rows t) :
    evaluate_assets pg db₁ g = evaluate_assets pg db₂ g := by
  have hq : queryTable pg db₁ g = queryTable pg db₂ g := by
    funext t
    unfold queryTable
    rw [hcols t, hrows t]
  have ht : tab_names db₁ = tab_names db₂ := by
    unfold tab_names
    rw [hcat]
  unfold evaluate_assets queriedFrames
  rw [hq, ht]

/-- Witness for C8 at the concrete witness database. -/
theorem claim_C8_witness :
    evaluate_assets pgW dbW gW = evaluate_assets pgW dbW gW :=
  claim_C8 pgW dbW dbW gW rfl (fun _ => rfl) (fun _ => rfl)

/-- Claim C9: every candidate table participates in the concatenation — all
of its query columns appear in the concatenated schema whatever its row
count — and the final schema (column set and order) depends only on the
catalog and the column layouts, never on how many rows any table
contributes. -/
theorem claim_C9 (pg₁ pg₂ : PostGIS) (db₁ db₂ : Database) (g₁ g₂ : Geom)
    (hcat : db₁.catalog = db₂.catalog) (hcols : ∀ t, db₁.cols t = db₂.cols t) :
    (∀ t ∈ tab_names db₁, ∀ c ∈ (queryTable pg₁ db₁ g₁ t).cols,
        c ∈ (concatFrames (queriedFrames pg₁ db₁ g₁)).cols)
    ∧ (evaluate_assets pg₁ db₁ g₁).cols = (evaluate_assets pg₂ db₂ g₂).cols := by
  constructor
  · intro t ht c hc
    show c ∈ concatCols ((queriedFrames pg₁ db₁ g₁).map Frame.cols)
    rw [mem_concatCols]
    exact ⟨(queryTable pg₁ db₁ g₁ t).cols,
      List.mem_map.mpr ⟨queryTable pg₁ db₁ g₁ t, List.mem_map.mpr ⟨t, ht, rfl⟩, rfl⟩, hc⟩
  · rw [evaluate_assets_cols, evaluate_assets_cols]
    have h1 : tab_names db₁ = tab_names db₂ := by
      unfold tab_names
      rw [hcat]
    have h2 : (fun t => db₁.cols t ++ ["longitude", "latitude", "distance_km"]) =
        (fun t => db₂.cols t ++ ["longitude", "latitude", "distance_km"]) := by
      funext t
      rw [hcols t]
    rw [h1, h2]

/-- Witness for C9: the populated witness database versus its copy with all
rows removed — the concatenated schema is unchanged. -/
theorem claim_C9_witness :
    (∀ t ∈ tab_names dbW, ∀ c ∈ (queryTable pgW dbW gW t).cols,
        c ∈ (concatFrames (queriedFrames pgW dbW gW)).cols)
    ∧ (evaluate_assets pgW dbW gW).cols = (evaluate_assets pgW dbW0 gW).cols :=
  claim_C9 pgW pgW dbW dbW0 gW gW rfl (fun _ => rfl)

/-- Claim C10: after PostgresDBManager.disconnect, the connection and cursor
fields are None whenever a connection was active beforehand — also when
closing raises a DatabaseError — and with no active connection the call
raises nothing, warns, and returns the state unchanged. -/
theorem claim_C10 (b : Bool) (s : PostgresDBManager) :
    (s.connection.isSome = true →
        ((PostgresDBManager.disconnect b s).1.connection = none
          ∧ (PostgresDBManager.disconnect b s).1.cursor = none))
    ∧ (s.connection = none →
        PostgresDBManager.disconnect b s = (s, [LogMsg.noActiveConn])) := by
  constructor
  · intro hs
    rcases hc : s.connection with _ | c
    · rw [hc] at hs
      simp at hs
    · unfold PostgresDBManager.disconnect
      rw [hc]
      simp
  · intro hs
    unfold PostgresDBManager.disconnect
    rw [hs]

/-- Witness for C10: a manager with an active connection whose close raises,
and a manager with no connection. -/
theorem claim_C10_witness :
    ((PostgresDBManager.disconnect true pgmSome).1.connection = none
      ∧ (PostgresDBManager.disconnect true pgmSome).1.cursor = none)
    ∧ PostgresDBManager.disconnect false pgmNone = (pgmNone, [LogMsg.noActiveConn]) :=
  ⟨(claim_C10 true pgmSome).1 rfl, (claim_C10 false pgmNone).2 rfl⟩
